import Mathlib

/-!
Verification of the zap-cli-v2 command line front end (src/zapcli/cli.py)
against its natural-language specification.

The CLI drives an external scanner daemon through remote calls.  A run of a
command is embedded as a pure function from the daemon behaviour (which remote
calls fail, which alerts are returned, how liveness probes answer) and the
parsed options to a record holding the ordered trace of remote calls issued,
the data handed to the reporter, the errors reported, and the process exit
code.

The repository source available here is cli.py only.  The helper layer it
calls (module helpers and class ZAPHelper) is not part of the sources, so
those operations are modelled from the specification; each such definition
carries a doc comment starting with "Modelled from the spec:".  All command
bodies are translated directly from cli.py.
-/

namespace ZapCliV2

/-- An alert returned by the scanner daemon.  The CLI only counts and reports
alerts; it never inspects or mutates them, so the payload is opaque. -/
structure Alert where
  name : String
  risk : String
deriving DecidableEq, Repr

/-- One remote call issued to the scanner daemon (the Remote Scan Client of
the spec).  A command run is summarised by the ordered trace of these calls. -/
inductive RemoteOp where
  | start
  | shutdown
  | openUrl (url : String)
  | setScanners (ids : List String)
  | excludePattern (pattern : String)
  | spider (url : String) (contextName userName : Option String)
  | ajaxSpider (url : String)
  | activeScan (url : String) (recursive : Bool) (contextName userName : Option String)
  | alerts (level : String)
deriving DecidableEq, Repr

/-- Behaviour of the external scanner daemon during one run: which remote
calls fail, which alerts come back for the requested minimum level, and the
answer of each successive liveness probe. -/
structure ZapEnv where
  startFail : Bool
  scannersFail : Bool
  excludeFail : Bool
  openUrlFail : Bool
  spiderFail : Bool
  ajaxFail : Bool
  activeScanFail : Bool
  shutdownFail : Bool
  alertsFail : Bool
  alertsAt : String → List Alert
  probeResults : Nat → Bool

/-- Process-wide mutable state visible through os.environ: the SOFT_FAIL
variable read at cli.py line 256 and written at line 48. -/
structure ProcEnv where
  softFailVar : Option String
deriving DecidableEq, Repr

/-- Python truthiness of an os.getenv result: the variable is set and
non-empty. -/
def truthyEnvVar : Option String → Bool
  | none => false
  | some s => !s.isEmpty

/-- Kind of error raised while a command runs: a usage error (invalid option
combination or malformed pattern or scanner token) or a failed remote call. -/
inductive ZapErrorKind where
  | usage
  | remote
deriving DecidableEq, Repr

/-- Trace of remote calls so far, together with the error, if any, that
aborted the guarded block being executed. -/
abbrev StepResult := List RemoteOp × Option ZapErrorKind

/-- Errors reported by one guarded block (zero or one). -/
def errList : Option ZapErrorKind → List ZapErrorKind
  | none => []
  | some e => [e]

namespace ZAPHelper

/-- Modelled from the spec: ZAPHelper.start issues the start remote primitive
(spec section 6), which may fail. -/
def start (env : ZapEnv) (tr : List RemoteOp) : StepResult :=
  (tr ++ [RemoteOp.start], if env.startFail then some ZapErrorKind.remote else none)

/-- Modelled from the spec: ZAPHelper.shutdown issues the shutdown remote
primitive (spec section 6), which may fail. -/
def shutdown (env : ZapEnv) (tr : List RemoteOp) : StepResult :=
  (tr ++ [RemoteOp.shutdown], if env.shutdownFail then some ZapErrorKind.remote else none)

/-- Modelled from the spec: ZAPHelper.set_enabled_scanners pushes the enabled
scanner id set to the daemon (spec section 4.2 step 2), which may fail. -/
def set_enabled_scanners (env : ZapEnv) (ids : List String) (tr : List RemoteOp) : StepResult :=
  (tr ++ [RemoteOp.setScanners ids], if env.scannersFail then some ZapErrorKind.remote else none)

/-- Modelled from the spec: ZAPHelper.exclude_from_all applies an exclusion
pattern uniformly to all scan subsystems (spec section 4.2 step 3), a single
logical remote operation that may fail. -/
def exclude_from_all (env : ZapEnv) (pattern : String) (tr : List RemoteOp) : StepResult :=
  (tr ++ [RemoteOp.excludePattern pattern], if env.excludeFail then some ZapErrorKind.remote else none)

/-- Modelled from the spec: ZAPHelper.open_url registers the target with the
daemon (spec section 4.2 step 4), which may fail. -/
def open_url (env : ZapEnv) (url : String) (tr : List RemoteOp) : StepResult :=
  (tr ++ [RemoteOp.openUrl url], if env.openUrlFail then some ZapErrorKind.remote else none)

/-- Modelled from the spec: ZAPHelper.run_spider runs the passive crawl.  A
user name without a context name is a usage error rejected before the remote
call is attempted, with no remote side effect (spec sections 3 and 8). -/
def run_spider (env : ZapEnv) (url : String) (contextName userName : Option String)
    (tr : List RemoteOp) : StepResult :=
  if userName.isSome && contextName.isNone then (tr, some ZapErrorKind.usage)
  else (tr ++ [RemoteOp.spider url contextName userName],
    if env.spiderFail then some ZapErrorKind.remote else none)

/-- Modelled from the spec: ZAPHelper.run_ajax_spider runs the active-content
crawl (spec section 4.2 step 6); it takes no context or user. -/
def run_ajax_spider (env : ZapEnv) (url : String) (tr : List RemoteOp) : StepResult :=
  (tr ++ [RemoteOp.ajaxSpider url], if env.ajaxFail then some ZapErrorKind.remote else none)

/-- Modelled from the spec: ZAPHelper.run_active_scan runs the active
vulnerability scan honouring the recursive flag and the context and user pair;
a user name without a context name is a usage error rejected before the remote
call is attempted (spec sections 3, 4.2 step 7 and 8). -/
def run_active_scan (env : ZapEnv) (url : String) (recursive : Bool)
    (contextName userName : Option String) (tr : List RemoteOp) : StepResult :=
  if userName.isSome && contextName.isNone then (tr, some ZapErrorKind.usage)
  else (tr ++ [RemoteOp.activeScan url recursive contextName userName],
    if env.activeScanFail then some ZapErrorKind.remote else none)

/-- Modelled from the spec: ZAPHelper.is_running is a single liveness probe
(probe_liveness of spec section 6), returning a boolean. -/
def is_running (env : ZapEnv) : Bool := env.probeResults 0

/-- Modelled from the spec: ZAPHelper.wait_for_zap repeatedly probes the
daemon for liveness until a probe succeeds or the deadline elapses (spec
section 4.1).  The first argument is the index of the next probe; the second
is the number of probes left before the deadline.  Returns the number of
probes performed and whether one succeeded. -/
def wait_for_zap (env : ZapEnv) : Nat → Nat → Nat × Bool
  | _, 0 => (0, false)
  | i, Nat.succ n =>
    if env.probeResults i then (1, true)
    else
      let r := wait_for_zap env (i + 1) n
      (r.1 + 1, r.2)

end ZAPHelper

/-- Sequencing inside a guarded block (a with zap_error_handler body): run the
next statement only when no earlier statement of the block raised and its
guard condition holds.  Modelled from the spec: helpers.zap_error_handler
catches the error, reports it and lets the command continue after the block;
in particular it never suppresses the self-contained shutdown attempt (spec
sections 4.2 step 9, 5 and 7). -/
def andThenIf (st : StepResult) (c : Bool) (step : List RemoteOp → StepResult) : StepResult :=
  if st.2.isSome then st
  else if c then step st.1 else st

/-- Options of the quick-scan command after argument parsing (cli.py lines
183 to 209).  The scanners option has already been resolved to a list of ids
and the exclude option validated, by the click callbacks. -/
structure QuickScanOptions where
  self_contained : Bool
  scanners : Option (List String)
  spider : Bool
  ajax_spider : Bool
  recursive : Bool
  alert_level : String
  exclude : Option String
  output_format : String
  context_name : Option String
  user_name : Option String
  soft_fail : Bool
deriving DecidableEq, Repr

/-- Outcome of one quick-scan run: the remote-call trace, what was handed to
the reporter, the errors reported by the guarded blocks, whether an uncaught
exception terminated the command, and the process exit code. -/
structure QuickScanRun where
  trace : List RemoteOp
  reportedAlerts : Option (List Alert)
  reportedFormat : Option String
  reportedErrors : List ZapErrorKind
  crashed : Bool
  exitCode : Nat
deriving DecidableEq, Repr

/-- Guarded main block of quick_scan, cli.py lines 229 to 244: optionally set
the enabled scanners, optionally apply the exclusion, open the url, optionally
spider, optionally ajax-spider, then run the active scan.  The first failure
skips the remaining statements of the block.  Conditions mirror Python
truthiness of the option values. -/
def quick_scan_stages (env : ZapEnv) (url : String) (scanners : Option (List String))
    (exclude : Option String) (spider ajax recursive : Bool)
    (contextName userName : Option String) (tr : List RemoteOp) : StepResult :=
  let s1 := andThenIf (tr, none) (!(scanners.getD []).isEmpty)
    (ZAPHelper.set_enabled_scanners env (scanners.getD []))
  let s2 := andThenIf s1 (!(exclude.getD "").isEmpty)
    (ZAPHelper.exclude_from_all env (exclude.getD ""))
  let s3 := andThenIf s2 true (ZAPHelper.open_url env url)
  let s4 := andThenIf s3 spider (ZAPHelper.run_spider env url contextName userName)
  let s5 := andThenIf s4 ajax (ZAPHelper.run_ajax_spider env url)
  andThenIf s5 true (ZAPHelper.run_active_scan env url recursive contextName userName)

/-- The quick-scan command body, cli.py lines 210 to 261.  If self-contained,
start the daemon inside a guarded block; run the guarded main block; collect
alerts at the requested level outside any guard (line 246; a failure there is
an uncaught exception, so the report, the shutdown and the exit-code policy
are skipped and the process terminates abnormally); report the alerts; if
self-contained, shut the daemon down inside a guarded block; finally exit 1
exactly when alerts were found and neither the per-command soft-fail flag nor
the SOFT_FAIL environment variable is set (lines 255 to 261). -/
def quick_scan (procEnv : ProcEnv) (env : ZapEnv) (url : String)
    (opts : QuickScanOptions) : QuickScanRun :=
  let startRes : StepResult :=
    if opts.self_contained then ZAPHelper.start env [] else ([], none)
  let mainRes := quick_scan_stages env url opts.scanners opts.exclude opts.spider
    opts.ajax_spider opts.recursive opts.context_name opts.user_name startRes.1
  let tr1 := mainRes.1 ++ [RemoteOp.alerts opts.alert_level]
  let alertsList := env.alertsAt opts.alert_level
  let shutRes : StepResult :=
    if opts.self_contained then ZAPHelper.shutdown env tr1 else (tr1, none)
  { trace := if env.alertsFail then tr1 else shutRes.1
    reportedAlerts := if env.alertsFail then none else some alertsList
    reportedFormat := if env.alertsFail then none else some opts.output_format
    reportedErrors := errList startRes.2 ++ errList mainRes.2 ++
      (if env.alertsFail then [] else errList shutRes.2)
    crashed := env.alertsFail
    exitCode := if env.alertsFail then 1
      else if !alertsList.isEmpty && !opts.soft_fail && !truthyEnvVar procEnv.softFailVar
      then 1 else 0 }

/-- Outcome of one run of the alerts command. -/
structure AlertsRun where
  reportedAlerts : Option (List Alert)
  reportedFormat : Option String
  crashed : Bool
  exitCode : Nat
deriving DecidableEq, Repr

/-- The alerts command body, cli.py lines 172 to 180: collect alerts at the
requested level (an uncaught exception if the remote call fails), report them
in the requested format, and, when the exit-code option is set, exit 1 when
any alerts were returned and 0 otherwise.  The ambient process environment is
passed but never consulted: the body reads neither the SOFT_FAIL variable nor
any per-command soft-fail flag. -/
def show_alerts (_procEnv : ProcEnv) (env : ZapEnv) (alert_level : String)
    (output_format : String) (exit_code : Bool) : AlertsRun :=
  if env.alertsFail then
    { reportedAlerts := none, reportedFormat := none, crashed := true, exitCode := 1 }
  else
    let alertsList := env.alertsAt alert_level
    { reportedAlerts := some alertsList
      reportedFormat := some output_format
      crashed := false
      exitCode := if exit_code then (if !alertsList.isEmpty then 1 else 0) else 0 }

/-- Outcome of one run of the status command. -/
structure StatusRun where
  probes : Nat
  reportedRunning : Bool
  exitCode : Nat
deriving DecidableEq, Repr

/-- The status command body, cli.py lines 77 to 99: probe liveness once; if
running, report so; otherwise, if a timeout was given, poll until success or
the deadline (a deadline failure is reported by the guarded block, after
which the command ends normally); otherwise report not running and exit 2
immediately. -/
def check_status (env : ZapEnv) (timeout : Option Nat) : StatusRun :=
  if ZAPHelper.is_running env then
    { probes := 1, reportedRunning := true, exitCode := 0 }
  else
    match timeout with
    | some t =>
      let r := ZAPHelper.wait_for_zap env 1 t
      if r.2 then { probes := 1 + r.1, reportedRunning := true, exitCode := 0 }
      else { probes := 1 + r.1, reportedRunning := false, exitCode := 0 }
    | none => { probes := 1, reportedRunning := false, exitCode := 2 }

/-- Outcome of a single-stage command run: the remote-call trace, the errors
reported, and the process exit code. -/
structure CmdRun where
  trace : List RemoteOp
  reportedErrors : List ZapErrorKind
  exitCode : Nat
deriving DecidableEq, Repr

/-- The spider command body, cli.py lines 118 to 122: run the spider inside a
guarded block. -/
def spider_url (env : ZapEnv) (url : String) (contextName userName : Option String) : CmdRun :=
  let r := ZAPHelper.run_spider env url contextName userName []
  { trace := r.1, reportedErrors := errList r.2, exitCode := 0 }

/-- The active-scan command body, cli.py lines 147 to 160: inside one guarded
block, set the enabled scanners when a truthy scanner list was supplied, then
run the active scan. -/
def active_scan (env : ZapEnv) (url : String) (scanners : Option (List String))
    (recursive : Bool) (contextName userName : Option String) : CmdRun :=
  let s1 := andThenIf ([], none) (!(scanners.getD []).isEmpty)
    (ZAPHelper.set_enabled_scanners env (scanners.getD []))
  let s2 := andThenIf s1 true (ZAPHelper.run_active_scan env url recursive contextName userName)
  { trace := s2.1, reportedErrors := errList s2.2, exitCode := 0 }

/-- The exclude command body, cli.py lines 267 to 270: apply the already
validated pattern inside a guarded block. -/
def exclude_from_scanners (env : ZapEnv) (pattern : String) : CmdRun :=
  let r := ZAPHelper.exclude_from_all env pattern []
  { trace := r.1, reportedErrors := errList r.2, exitCode := 0 }

/-- The top-level group callback, cli.py lines 39 to 50: when the soft-fail
flag is given, mutate the process environment by setting the SOFT_FAIL
variable to the string true. -/
def cli (procEnv : ProcEnv) (soft_fail : Bool) : ProcEnv :=
  if soft_fail then { softFailVar := some "true" } else procEnv

/-- Modelled from the spec: helpers.validate_regex, the click callback on the
exclude option and pattern argument.  It validates the regular expression at
argument-resolution time; an invalid pattern is a usage error raised before
the command body runs (spec sections 3 and 7).  The regex engine is external,
so validity is a parameter. -/
def validate_regex (regexOk : String → Bool) (pattern : Option String) :
    Except ZapErrorKind (Option String) :=
  match pattern with
  | none => Except.ok none
  | some p => if regexOk p then Except.ok (some p) else Except.error ZapErrorKind.usage

/-- Modelled from the spec: helpers.validate_scanner_list, the click callback
on the scanners option.  It resolves each token (a literal id or a group
name) at argument-resolution time; a token resolving to no scanner ids is an
error raised before the command body runs (spec sections 3 and 7).  The
resolution table is external, so it is a parameter returning none for an
unresolvable token list. -/
def validate_scanner_list (resolve : String → Option (List String))
    (scanners : Option String) : Except ZapErrorKind (Option (List String)) :=
  match scanners with
  | none => Except.ok none
  | some s =>
    match resolve s with
    | some ids => Except.ok (some ids)
    | none => Except.error ZapErrorKind.usage

/-- A quick-scan invocation including argument resolution: click runs the two
validation callbacks while parsing, before the command body; a callback
failure exits 2 with no remote call made, the daemon start included. -/
def quick_scan_invoke (resolve : String → Option (List String)) (regexOk : String → Bool)
    (procEnv : ProcEnv) (env : ZapEnv) (url : String)
    (rawScanners rawExclude : Option String) (opts : QuickScanOptions) : QuickScanRun :=
  match validate_scanner_list resolve rawScanners with
  | Except.error _ =>
    { trace := [], reportedAlerts := none, reportedFormat := none,
      reportedErrors := [ZapErrorKind.usage], crashed := false, exitCode := 2 }
  | Except.ok scanners =>
    match validate_regex regexOk rawExclude with
    | Except.error _ =>
      { trace := [], reportedAlerts := none, reportedFormat := none,
        reportedErrors := [ZapErrorKind.usage], crashed := false, exitCode := 2 }
    | Except.ok pat =>
      quick_scan procEnv env url { opts with scanners := scanners, exclude := pat }

/-- An active-scan invocation including argument resolution of the scanners
option. -/
def active_scan_invoke (resolve : String → Option (List String)) (env : ZapEnv)
    (url : String) (rawScanners : Option String) (recursive : Bool)
    (contextName userName : Option String) : CmdRun :=
  match validate_scanner_list resolve rawScanners with
  | Except.error _ => { trace := [], reportedErrors := [ZapErrorKind.usage], exitCode := 2 }
  | Except.ok scanners => active_scan env url scanners recursive contextName userName

/-- An exclude invocation including argument resolution of the required
pattern argument. -/
def exclude_invoke (regexOk : String → Bool) (env : ZapEnv) (pattern : String) : CmdRun :=
  if regexOk pattern then exclude_from_scanners env pattern
  else { trace := [], reportedErrors := [ZapErrorKind.usage], exitCode := 2 }

/-- One entry of an abstract stage schedule: the enabling condition of the
stage, the remote calls it issues when it runs, and the error, if any, it
raises. -/
abbrev StageEntry := Bool × List RemoteOp × Option ZapErrorKind

/-- Remote calls issued by an abstract stage schedule: a stage runs only when
enabled, and a failing stage skips every later entry. -/
def runSchedule : List StageEntry → List RemoteOp
  | [] => []
  | (enabled, ops, err) :: rest =>
    if enabled then ops ++ (if err.isSome then [] else runSchedule rest)
    else runSchedule rest

/-- A stage that appends its remote calls to the trace and reports a fixed
error outcome. -/
def pureStep (ops : List RemoteOp) (err : Option ZapErrorKind) (tr : List RemoteOp) : StepResult :=
  (tr ++ ops, err)

/-- Guarded sequencing of a whole abstract stage schedule. -/
def chainOf : List StageEntry → StepResult → StepResult
  | [], st => st
  | e :: rest, st => chainOf rest (andThenIf st e.1 (pureStep e.2.1 e.2.2))

/-- Abstract schedule of the guarded quick-scan block, read off the spec: the
guarded stages in the fixed order configure scanners, apply exclusions,
register target, passive crawl, active-content crawl, active scan; optional
stages run only when requested (Python truthiness of the option); a user name
without a context name makes the crawl and scan stages raise a usage error
without issuing their remote call. -/
def quickScanEntries (env : ZapEnv) (url : String) (scanners : Option (List String))
    (exclude : Option String) (spider ajax recursive : Bool)
    (contextName userName : Option String) : List StageEntry :=
  [(!(scanners.getD []).isEmpty, [RemoteOp.setScanners (scanners.getD [])],
      if env.scannersFail then some ZapErrorKind.remote else none),
   (!(exclude.getD "").isEmpty, [RemoteOp.excludePattern (exclude.getD "")],
      if env.excludeFail then some ZapErrorKind.remote else none),
   (true, [RemoteOp.openUrl url],
      if env.openUrlFail then some ZapErrorKind.remote else none),
   (spider,
      (if userName.isSome && contextName.isNone then []
        else [RemoteOp.spider url contextName userName]),
      (if userName.isSome && contextName.isNone then some ZapErrorKind.usage
        else if env.spiderFail then some ZapErrorKind.remote else none)),
   (ajax, [RemoteOp.ajaxSpider url],
      if env.ajaxFail then some ZapErrorKind.remote else none),
   (true,
      (if userName.isSome && contextName.isNone then []
        else [RemoteOp.activeScan url recursive contextName userName]),
      (if userName.isSome && contextName.isNone then some ZapErrorKind.usage
        else if env.activeScanFail then some ZapErrorKind.remote else none))]

/-- Stage schedule of the guarded quick-scan block as the ordering invariant
of the spec describes it: stages in the fixed order, the first failure
skipping every later guarded stage. -/
def specGuardedSchedule (env : ZapEnv) (url : String) (scanners : Option (List String))
    (exclude : Option String) (spider ajax recursive : Bool)
    (contextName userName : Option String) : List RemoteOp :=
  runSchedule (quickScanEntries env url scanners exclude spider ajax recursive
    contextName userName)

/-- Daemon behaviour in which every remote call succeeds, one High alert is
returned at every level, and every liveness probe answers positively. -/
def envOk : ZapEnv :=
  { startFail := false, scannersFail := false, excludeFail := false, openUrlFail := false
    spiderFail := false, ajaxFail := false, activeScanFail := false, shutdownFail := false
    alertsFail := false
    alertsAt := fun _ => [{ name := "Cross Site Scripting", risk := "High" }]
    probeResults := fun _ => true }

/-- Daemon behaviour like envOk but returning no alerts. -/
def envNoAlerts : ZapEnv := { envOk with alertsAt := fun _ => [] }

/-- Daemon behaviour like envOk but with a failing target registration. -/
def envOpenUrlFail : ZapEnv := { envOk with openUrlFail := true }

/-- Daemon behaviour like envOk but with a failing active scan. -/
def envActiveScanFail : ZapEnv := { envOk with activeScanFail := true }

/-- Daemon behaviour like envOk but answering no liveness probe. -/
def envDown : ZapEnv := { envOk with probeResults := fun _ => false }

/-- Quick-scan options with every flag off and the defaults of cli.py lines
183 to 209. -/
def optsBase : QuickScanOptions :=
  { self_contained := false, scanners := none, spider := false, ajax_spider := false
    recursive := false, alert_level := "High", exclude := none, output_format := "table"
    context_name := none, user_name := none, soft_fail := false }

/-- Quick-scan options supplying a user name without a context name. -/
def optsUserNoCtx : QuickScanOptions := { optsBase with user_name := some "bob" }

/-- Remote calls that carry the context and user pair. -/
def usesContextUser : RemoteOp → Bool
  | RemoteOp.spider _ _ _ => true
  | RemoteOp.activeScan _ _ _ _ => true
  | _ => false

theorem chainOf_error : ∀ (l : List StageEntry) (st : StepResult),
    st.2.isSome = true → chainOf l st = st
  | [], _, _ => rfl
  | e :: rest, st, h => by
    unfold chainOf
    rw [show andThenIf st e.1 (pureStep e.2.1 e.2.2) = st by simp [andThenIf, h]]
    exact chainOf_error rest st h

theorem chainOf_trace : ∀ (l : List StageEntry) (tr : List RemoteOp),
    (chainOf l (tr, none)).1 = tr ++ runSchedule l
  | [], tr => by simp [chainOf, runSchedule]
  | (c, ops, err) :: rest, tr => by
    cases c with
    | false => simpa [chainOf, andThenIf, runSchedule] using chainOf_trace rest tr
    | true =>
      cases err with
      | none =>
        simpa [chainOf, andThenIf, pureStep, runSchedule] using chainOf_trace rest (tr ++ ops)
      | some e =>
        simp [chainOf, andThenIf, pureStep, runSchedule,
          chainOf_error rest (tr ++ ops, some e) rfl]

theorem run_spider_pure (env : ZapEnv) (url : String) (contextName userName : Option String) :
    ZAPHelper.run_spider env url contextName userName =
      pureStep
        (if userName.isSome && contextName.isNone then []
          else [RemoteOp.spider url contextName userName])
        (if userName.isSome && contextName.isNone then some ZapErrorKind.usage
          else if env.spiderFail then some ZapErrorKind.remote else none) := by
  funext tr
  cases hg : userName.isSome && contextName.isNone <;>
    simp [ZAPHelper.run_spider, pureStep, hg]

theorem run_active_scan_pure (env : ZapEnv) (url : String) (recursive : Bool)
    (contextName userName : Option String) :
    ZAPHelper.run_active_scan env url recursive contextName userName =
      pureStep
        (if userName.isSome && contextName.isNone then []
          else [RemoteOp.activeScan url recursive contextName userName])
        (if userName.isSome && contextName.isNone then some ZapErrorKind.usage
          else if env.activeScanFail then some ZapErrorKind.remote else none) := by
  funext tr
  cases hg : userName.isSome && contextName.isNone <;>
    simp [ZAPHelper.run_active_scan, pureStep, hg]

theorem quick_scan_stages_eq_chainOf (env : ZapEnv) (url : String)
    (scanners : Option (List String)) (exclude : Option String)
    (spider ajax recursive : Bool) (contextName userName : Option String)
    (tr : List RemoteOp) :
    quick_scan_stages env url scanners exclude spider ajax recursive
      contextName userName tr =
    chainOf (quickScanEntries env url scanners exclude spider ajax recursive
      contextName userName) (tr, none) := by
  simp only [quick_scan_stages, quickScanEntries, chainOf]
  rw [run_spider_pure, run_active_scan_pure]
  rfl

theorem quick_scan_stages_trace (env : ZapEnv) (url : String)
    (scanners : Option (List String)) (exclude : Option String)
    (spider ajax recursive : Bool) (contextName userName : Option String)
    (tr : List RemoteOp) :
    (quick_scan_stages env url scanners exclude spider ajax recursive
      contextName userName tr).1 =
      tr ++ specGuardedSchedule env url scanners exclude spider ajax recursive
        contextName userName := by
  rw [quick_scan_stages_eq_chainOf, chainOf_trace, specGuardedSchedule]

theorem quick_scan_trace (procEnv : ProcEnv) (env : ZapEnv) (url : String)
    (opts : QuickScanOptions) :
    (quick_scan procEnv env url opts).trace =
      (if opts.self_contained then [RemoteOp.start] else []) ++
      specGuardedSchedule env url opts.scanners opts.exclude opts.spider opts.ajax_spider
        opts.recursive opts.context_name opts.user_name ++
      [RemoteOp.alerts opts.alert_level] ++
      (if opts.self_contained && !env.alertsFail then [RemoteOp.shutdown] else []) := by
  cases hsc : opts.self_contained <;> cases haf : env.alertsFail <;>
    simp [quick_scan, ZAPHelper.start, ZAPHelper.shutdown, quick_scan_stages_trace,
      hsc, haf, List.append_assoc]

theorem mem_runSchedule {op : RemoteOp} : ∀ (l : List StageEntry),
    op ∈ runSchedule l → ∃ e ∈ l, op ∈ e.2.1 := by
  intro l
  induction l with
  | nil => intro h; simp [runSchedule] at h
  | cons e rest ih =>
    obtain ⟨c, ops, err⟩ := e
    intro h
    simp only [runSchedule] at h
    cases c with
    | false =>
      simp only [if_neg Bool.false_ne_true] at h
      obtain ⟨e, he, hop⟩ := ih h
      exact ⟨e, List.mem_cons_of_mem _ he, hop⟩
    | true =>
      simp only [if_pos rfl] at h
      rcases List.mem_append.mp h with h | h
      · exact ⟨(true, ops, err), List.mem_cons_self _ _, h⟩
      · cases herr : err.isSome with
        | true => rw [herr] at h; simp at h
        | false =>
          rw [herr] at h
          simp only [if_neg Bool.false_ne_true] at h
          obtain ⟨e, he, hop⟩ := ih h
          exact ⟨e, List.mem_cons_of_mem _ he, hop⟩

theorem shutdown_not_mem_schedule (env : ZapEnv) (url : String)
    (scanners : Option (List String)) (exclude : Option String)
    (spider ajax recursive : Bool) (contextName userName : Option String) :
    RemoteOp.shutdown ∉ specGuardedSchedule env url scanners exclude spider ajax recursive
      contextName userName := by
  intro hmem
  obtain ⟨e, he, hop⟩ := mem_runSchedule _ hmem
  simp only [quickScanEntries, List.mem_cons, List.not_mem_nil, or_false] at he
  rcases he with rfl | rfl | rfl | rfl | rfl | rfl <;>
    revert hop <;>
    (cases hg : userName.isSome && contextName.isNone <;> simp [hg])

/-- C1: in every self-contained quick-scan run whose alert collection does
not itself crash the command, the daemon shutdown is attempted exactly once,
regardless of which earlier stages (scanner configuration, exclusion,
open-url, spider, ajax-spider, active scan) failed. -/
theorem claim_C1_shutdown_exactly_once (procEnv : ProcEnv) (env : ZapEnv) (url : String)
    (opts : QuickScanOptions) (hsc : opts.self_contained = true)
    (haf : env.alertsFail = false) :
    ((quick_scan procEnv env url opts).trace).count RemoteOp.shutdown = 1 := by
  rw [quick_scan_trace, hsc, haf]
  rw [List.count_append, List.count_append, List.count_append]
  rw [List.count_eq_zero.mpr (shutdown_not_mem_schedule env url opts.scanners opts.exclude
    opts.spider opts.ajax_spider opts.recursive opts.context_name opts.user_name)]
  simp

/-- Witness for C1: a concrete self-contained run whose active scan fails
still shuts the daemon down exactly once. -/
theorem claim_C1_witness :
    ((quick_scan ⟨none⟩ envActiveScanFail "http://example.com"
      { optsBase with self_contained := true }).trace).count RemoteOp.shutdown = 1 :=
  claim_C1_shutdown_exactly_once ⟨none⟩ envActiveScanFail "http://example.com"
    { optsBase with self_contained := true } rfl rfl

/-- C2: for a quick-scan run that completes its stages and collects alerts,
the exit code is 0 when the collected alert set is empty, 0 when it is
non-empty but the per-command soft-fail flag or the process-wide override is
active, and 1 otherwise, over all four flag and override combinations. -/
theorem claim_C2_exit_code_policy (procEnv : ProcEnv) (env : ZapEnv) (url : String)
    (opts : QuickScanOptions)
    (hok : env.startFail = false ∧ env.scannersFail = false ∧ env.excludeFail = false ∧
      env.openUrlFail = false ∧ env.spiderFail = false ∧ env.ajaxFail = false ∧
      env.activeScanFail = false ∧ env.shutdownFail = false ∧ env.alertsFail = false) :
    (quick_scan procEnv env url opts).exitCode =
      if (env.alertsAt opts.alert_level).isEmpty then 0
      else if opts.soft_fail || truthyEnvVar procEnv.softFailVar then 0
      else 1 := by
  obtain ⟨-, -, -, -, -, -, -, -, haf⟩ := hok
  cases hA : (env.alertsAt opts.alert_level).isEmpty <;>
    cases hsf : opts.soft_fail <;>
    cases hv : truthyEnvVar procEnv.softFailVar <;>
    simp [quick_scan, haf, hA, hsf, hv]

/-- Witness for C2: a completed run that collects one High alert with both
soft-fail switches off exits 1. -/
theorem claim_C2_witness :
    (quick_scan ⟨none⟩ envOk "http://example.com" optsBase).exitCode = 1 :=
  (claim_C2_exit_code_policy ⟨none⟩ envOk "http://example.com" optsBase
    ⟨rfl, rfl, rfl, rfl, rfl, rfl, rfl, rfl, rfl⟩).trans (by decide)

/-- C3 counterexample: with the process-wide soft-fail override active and
one High alert collected, the alerts command still exits 1, where the claim
predicts exit code 0: its body never consults the override. -/
theorem claim_C3_counterexample :
    truthyEnvVar (ProcEnv.mk (some "true")).softFailVar = true ∧
    (show_alerts ⟨some "true"⟩ envOk "High" "table" true).exitCode = 1 := by decide

/-- C3 amended: the alerts command derives its exit code from the collected
alert count and its exit-code option alone; unlike quick-scan it has no
soft-fail flag and never reads the soft-fail override, so the policy of the
two commands differs whenever soft-fail is active. -/
theorem claim_C3_alerts_exit_code (procEnv : ProcEnv) (env : ZapEnv)
    (level fmt : String) (exit_code : Bool) (haf : env.alertsFail = false) :
    (show_alerts procEnv env level fmt exit_code).exitCode =
      if exit_code && !(env.alertsAt level).isEmpty then 1 else 0 := by
  cases hec : exit_code <;> cases hA : (env.alertsAt level).isEmpty <;>
    simp [show_alerts, haf, hec, hA]

/-- Witness for the amended C3 at a run collecting one High alert. -/
theorem claim_C3_witness :
    (show_alerts ⟨some "true"⟩ envOk "High" "json" true).exitCode = 1 :=
  (claim_C3_alerts_exit_code ⟨some "true"⟩ envOk "High" "json" true rfl).trans (by decide)

/-- C4 counterexample: a quick-scan run given a user name without a context
name does report a usage rejection, but only at the active-scan stage: the
target registration remote call was already issued before the rejection, so
the run is not rejected before any remote call and remote side effects do
occur. -/
theorem claim_C4_counterexample :
    (quick_scan ⟨none⟩ envOk "http://example.com" optsUserNoCtx).reportedErrors
        = [ZapErrorKind.usage] ∧
    RemoteOp.openUrl "http://example.com" ∈
      (quick_scan ⟨none⟩ envOk "http://example.com" optsUserNoCtx).trace := by decide

/-- C4 amended: a user name without a context name is rejected by the stage
that would use it, before that stage issues its own remote call: no remote
call carrying the context and user pair ever appears in the trace of such a
quick-scan run, and the standalone spider command issues no remote call at
all and reports the usage error.  Stages ordered before the rejecting stage,
such as the target registration, do run first. -/
theorem claim_C4_user_without_context (procEnv : ProcEnv) (env : ZapEnv)
    (url : String) (opts : QuickScanOptions) (u : String)
    (hu : opts.user_name.isSome = true) (hc : opts.context_name = none) :
    ((quick_scan procEnv env url opts).trace).all
        (fun op => !usesContextUser op) = true ∧
    spider_url env url none (some u) =
      { trace := [], reportedErrors := [ZapErrorKind.usage], exitCode := 0 } := by
  have hg : (opts.user_name.isSome && opts.context_name.isNone) = true := by
    rw [hu, hc]; rfl
  refine ⟨List.all_eq_true.mpr ?_, rfl⟩
  intro op hop
  rw [quick_scan_trace] at hop
  simp only [List.append_assoc, List.mem_append, List.mem_singleton] at hop
  rcases hop with hop | hop | hop | hop
  · cases hsc : opts.self_contained <;> rw [hsc] at hop <;> simp at hop
    subst hop; rfl
  · unfold specGuardedSchedule at hop
    obtain ⟨e, he, hope⟩ := mem_runSchedule _ hop
    simp only [quickScanEntries, List.mem_cons, List.not_mem_nil, or_false] at he
    rcases he with rfl | rfl | rfl | rfl | rfl | rfl
    · rw [List.mem_singleton] at hope; subst hope; rfl
    · rw [List.mem_singleton] at hope; subst hope; rfl
    · rw [List.mem_singleton] at hope; subst hope; rfl
    · rw [hg] at hope; simp at hope
    · rw [List.mem_singleton] at hope; subst hope; rfl
    · rw [hg] at hope; simp at hope
  · subst hop; rfl
  · cases hpost : (opts.self_contained && !env.alertsFail) <;> rw [hpost] at hop <;>
      simp at hop
    subst hop; rfl

/-- Witness for the amended C4 at a concrete run supplying a user name and no
context name. -/
theorem claim_C4_witness :
    ((quick_scan ⟨none⟩ envOk "http://example.com" optsUserNoCtx).trace).all
        (fun op => !usesContextUser op) = true ∧
    spider_url envOk "http://example.com" none (some "bob") =
      { trace := [], reportedErrors := [ZapErrorKind.usage], exitCode := 0 } :=
  claim_C4_user_without_context ⟨none⟩ envOk "http://example.com" optsUserNoCtx "bob" rfl rfl

/-- C5: a status run with no timeout against a daemon whose initial liveness
probe fails exits 2 immediately after that single probe, with no retry; and
whenever the initial probe succeeds the command reports running after that
single probe with exit code 0, whatever the timeout option. -/
theorem claim_C5_status_policy (env : ZapEnv) (timeout : Option Nat) :
    (env.probeResults 0 = false →
      check_status env none = { probes := 1, reportedRunning := false, exitCode := 2 }) ∧
    (env.probeResults 0 = true →
      check_status env timeout = { probes := 1, reportedRunning := true, exitCode := 0 }) := by
  constructor <;> intro h <;> simp [check_status, ZAPHelper.is_running, h]

/-- Witness for C5: a non-running daemon with no timeout gives an immediate
exit 2 after one probe; a running daemon with a timeout given reports running
after one probe. -/
theorem claim_C5_witness :
    check_status envDown none = { probes := 1, reportedRunning := false, exitCode := 2 } ∧
    check_status envOk (some 5) = { probes := 1, reportedRunning := true, exitCode := 0 } :=
  ⟨(claim_C5_status_policy envDown none).1 rfl,
   (claim_C5_status_policy envOk (some 5)).2 rfl⟩

/-- C6: an invalid exclusion regex or an unresolvable scanner token aborts a
quick-scan, active-scan or exclude invocation at argument-resolution time:
the command body never runs, no remote call is issued (the daemon start
included, since the trace stays empty) and the process exits 2 with a usage
error. -/
theorem claim_C6_eager_validation (resolve : String → Option (List String))
    (regexOk : String → Bool) (procEnv : ProcEnv) (env : ZapEnv) (url : String)
    (rawScanners rawExclude : Option String) (pat tok : String)
    (opts : QuickScanOptions) (recursive : Bool) (contextName userName : Option String) :
    (regexOk pat = false →
      (quick_scan_invoke resolve regexOk procEnv env url rawScanners (some pat) opts).trace
          = [] ∧
      (quick_scan_invoke resolve regexOk procEnv env url rawScanners (some pat)
        opts).exitCode = 2 ∧
      (exclude_invoke regexOk env pat).trace = [] ∧
      (exclude_invoke regexOk env pat).exitCode = 2) ∧
    (resolve tok = none →
      (quick_scan_invoke resolve regexOk procEnv env url (some tok) rawExclude opts).trace
          = [] ∧
      (quick_scan_invoke resolve regexOk procEnv env url (some tok) rawExclude
        opts).exitCode = 2 ∧
      (active_scan_invoke resolve env url (some tok) recursive contextName userName).trace
          = [] ∧
      (active_scan_invoke resolve env url (some tok) recursive contextName
        userName).exitCode = 2) := by
  constructor
  · intro hpat
    refine ⟨?_, ?_, ?_, ?_⟩ <;>
      cases hs : validate_scanner_list resolve rawScanners <;>
        simp [quick_scan_invoke, exclude_invoke, validate_regex, hs, hpat]
  · intro htok
    have hs : validate_scanner_list resolve (some tok) = Except.error ZapErrorKind.usage := by
      simp [validate_scanner_list, htok]
    refine ⟨?_, ?_, ?_, ?_⟩ <;>
      simp [quick_scan_invoke, active_scan_invoke, hs]

/-- Witness for C6 with a resolver that resolves no token and a regex checker
that accepts no pattern. -/
theorem claim_C6_witness :
    ((quick_scan_invoke (fun _ => none) (fun _ => false) ⟨none⟩ envOk "http://example.com"
        none (some "[") optsBase).trace = [] ∧
      (quick_scan_invoke (fun _ => none) (fun _ => false) ⟨none⟩ envOk "http://example.com"
        none (some "[") optsBase).exitCode = 2 ∧
      (exclude_invoke (fun _ => false) envOk "[").trace = [] ∧
      (exclude_invoke (fun _ => false) envOk "[").exitCode = 2) ∧
    ((quick_scan_invoke (fun _ => none) (fun _ => false) ⟨none⟩ envOk "http://example.com"
        (some "nosuchgroup") none optsBase).trace = [] ∧
      (quick_scan_invoke (fun _ => none) (fun _ => false) ⟨none⟩ envOk "http://example.com"
        (some "nosuchgroup") none optsBase).exitCode = 2 ∧
      (active_scan_invoke (fun _ => none) envOk "http://example.com" (some "nosuchgroup")
        false none none).trace = [] ∧
      (active_scan_invoke (fun _ => none) envOk "http://example.com" (some "nosuchgroup")
        false none none).exitCode = 2) :=
  ⟨(claim_C6_eager_validation (fun _ => none) (fun _ => false) ⟨none⟩ envOk
      "http://example.com" none none "[" "nosuchgroup" optsBase false none none).1 rfl,
   (claim_C6_eager_validation (fun _ => none) (fun _ => false) ⟨none⟩ envOk
      "http://example.com" none none "[" "nosuchgroup" optsBase false none none).2 rfl⟩

/-- C7 counterexample: when the target registration fails, the later
collect-alerts stage still runs: the remote failure is reported, the active
scan is skipped, yet the alerts remote call appears in the trace, so it is
false that no later stage of the claimed order runs when an earlier required
stage failed. -/
theorem claim_C7_counterexample :
    (quick_scan ⟨none⟩ envOpenUrlFail "http://example.com" optsBase).reportedErrors
        = [ZapErrorKind.remote] ∧
    RemoteOp.openUrl "http://example.com" ∈
      (quick_scan ⟨none⟩ envOpenUrlFail "http://example.com" optsBase).trace ∧
    RemoteOp.activeScan "http://example.com" false none none ∉
      (quick_scan ⟨none⟩ envOpenUrlFail "http://example.com" optsBase).trace ∧
    RemoteOp.alerts "High" ∈
      (quick_scan ⟨none⟩ envOpenUrlFail "http://example.com" optsBase).trace := by decide

/-- C7 amended: the guarded quick-scan stages execute in the fixed order
configure scanners, apply exclusions, register target, passive crawl,
active-content crawl, active scan, and the first failure of a guarded stage
skips the remaining guarded stages; alert collection, however, lies outside
the guarded block and still runs after such a failure, as does the
self-contained shutdown (unless alert collection itself crashed the command):
the trace of every run is exactly the optional start call, the guarded
schedule cut at its first failure, the alert collection, and the optional
shutdown. -/
theorem claim_C7_stage_order (procEnv : ProcEnv) (env : ZapEnv) (url : String)
    (opts : QuickScanOptions) :
    (quick_scan procEnv env url opts).trace =
      (if opts.self_contained then [RemoteOp.start] else []) ++
      specGuardedSchedule env url opts.scanners opts.exclude opts.spider opts.ajax_spider
        opts.recursive opts.context_name opts.user_name ++
      [RemoteOp.alerts opts.alert_level] ++
      (if opts.self_contained && !env.alertsFail then [RemoteOp.shutdown] else []) :=
  quick_scan_trace procEnv env url opts

/-- C8: the output format option changes neither the alert set handed to the
reporter nor the process exit code, for both the quick-scan command and the
alerts command: it affects only the rendering. -/
theorem claim_C8_format_independent (procEnv : ProcEnv) (env : ZapEnv) (url : String)
    (opts : QuickScanOptions) (level : String) (exit_code : Bool) (fmt1 fmt2 : String) :
    ((quick_scan procEnv env url { opts with output_format := fmt1 }).reportedAlerts =
      (quick_scan procEnv env url { opts with output_format := fmt2 }).reportedAlerts) ∧
    ((quick_scan procEnv env url { opts with output_format := fmt1 }).exitCode =
      (quick_scan procEnv env url { opts with output_format := fmt2 }).exitCode) ∧
    ((show_alerts procEnv env level fmt1 exit_code).reportedAlerts =
      (show_alerts procEnv env level fmt2 exit_code).reportedAlerts) ∧
    ((show_alerts procEnv env level fmt1 exit_code).exitCode =
      (show_alerts procEnv env level fmt2 exit_code).exitCode) := by
  refine ⟨rfl, rfl, ?_, ?_⟩ <;>
    cases haf : env.alertsFail <;> simp [show_alerts, haf]

/-- C9: with the exit-code option off, the alerts command still reports the
collected alerts in the requested format but never exits non-zero, even when
qualifying alerts exist. -/
theorem claim_C9_no_exit_code (procEnv : ProcEnv) (env : ZapEnv) (level fmt : String)
    (haf : env.alertsFail = false) :
    (show_alerts procEnv env level fmt false).reportedAlerts = some (env.alertsAt level) ∧
    (show_alerts procEnv env level fmt false).exitCode = 0 := by
  simp [show_alerts, haf]

/-- Witness for C9 at a run collecting one High alert. -/
theorem claim_C9_witness :
    (show_alerts ⟨none⟩ envOk "High" "table" false).reportedAlerts =
      some (envOk.alertsAt "High") ∧
    (show_alerts ⟨none⟩ envOk "High" "table" false).exitCode = 0 :=
  claim_C9_no_exit_code ⟨none⟩ envOk "High" "table" rfl

/-- C10: the top-level soft-fail flag writes the SOFT_FAIL variable into the
process environment, and a subsequent quick-scan in the same process observes
the override and exits 0 even when alerts were collected and its own
soft-fail flag is off. -/
theorem claim_C10_soft_fail_override (procEnv : ProcEnv) (env : ZapEnv) (url : String)
    (opts : QuickScanOptions) (haf : env.alertsFail = false)
    (hsf : opts.soft_fail = false) (hA : env.alertsAt opts.alert_level ≠ []) :
    (cli procEnv true).softFailVar = some "true" ∧
    (quick_scan (cli procEnv true) env url opts).exitCode = 0 := by
  refine ⟨rfl, ?_⟩
  have ht : truthyEnvVar (cli procEnv true).softFailVar = true := rfl
  simp [quick_scan, haf, hsf, ht]

/-- Witness for C10: with the override just set, a run collecting one High
alert and no per-command soft-fail flag exits 0. -/
theorem claim_C10_witness :
    (cli ⟨none⟩ true).softFailVar = some "true" ∧
    (quick_scan (cli ⟨none⟩ true) envOk "http://example.com" optsBase).exitCode = 0 :=
  claim_C10_soft_fail_override ⟨none⟩ envOk "http://example.com" optsBase rfl rfl
    (by decide)

end ZapCliV2
